import Mathlib

/-!
Verification of the "set your own price" order wizard of the
front-end-dashboard repository.

The development shallowly embeds the script of `src/app/pages/pricing.vue`
(second document: the `poner-precio` wizard), the index-based slider
component `src/app/components/RangeInput.vue`, and the confirmation modal
(`ConfirmModal`, second document of `RangeInput.vue`).  Strings are modelled
through their character lists so that all operations reduce inside the
kernel; JavaScript numbers that hold quantities and prices are modelled as
rationals; the single-threaded event loop is modelled as an explicit event
step function over a wizard state record, with network completions delivered
as separate events.
-/

namespace Wizard

/-! ## String utilities (models of the JS string operations used) -/

/-- Whitespace characters removed by `String.prototype.trim` (the ones that
can occur in this code base). -/
def isSpaceChar (c : Char) : Bool :=
  c = ' ' ∨ c = '\t' ∨ c = '\n' ∨ c = '\r'

/-- Model of JavaScript `s.trim()`: drop whitespace from both ends. -/
def jsTrim (s : String) : String :=
  ⟨((s.data.dropWhile isSpaceChar).reverse.dropWhile isSpaceChar).reverse⟩

/-- Model of `u.startsWith('@') ? u.slice(1) : u` and of
`query.trim().replace(/^@/, '')`'s at-stripping part. -/
def stripAt (s : String) : String :=
  match s.data with
  | '@' :: rest => ⟨rest⟩
  | _ => s

/-- Model of JavaScript `s.toLowerCase()` (per-character lowering). -/
def jsToLower (s : String) : String :=
  ⟨s.data.map Char.toLower⟩

/-- Model of JavaScript `s.length` (number of characters). -/
def strLen (s : String) : Nat := s.data.length

/-- Model of the JavaScript string-or idiom `a || b` (empty string is
falsy). -/
def jsOr (a b : String) : String := if a = "" then b else a

/-- Model of `a || b` where `a` is a nullable string (`null` and the empty
string are falsy). -/
def jsOrN (a : Option String) (b : String) : String :=
  match a with
  | some c => if c = "" then b else c
  | none => b

/-! ## Email validation

`isValidEmail` in `pricing.vue` tests `email.trim()` against the regular
expression `^[^\s@]+@[^\s@]+\.[^\s@]+$`.  A string matches that pattern iff
it decomposes as `u ++ "@" ++ v` where `u` is a nonempty run of
non-space-non-`@` characters and `v` is a nonempty run of
non-space-non-`@` characters containing a dot that is neither its first nor
its last character (the class `[^\s@]` contains `'.'`, so the two runs
around the mandatory dot merge into one run with an interior dot).  Because
the class excludes `'@'`, the split is necessarily at the unique `'@'`. -/

/-- A character matched by the regex class `[^\s@]`. -/
def isEmailChar (c : Char) : Bool := ¬ (c = '@' ∨ isSpaceChar c)

/-- Model of `isValidEmail` from `pricing.vue`: test
`^[^\s@]+@[^\s@]+\.[^\s@]+$` against the trimmed email. -/
def isValidEmail (email : String) : Bool :=
  let s := (jsTrim email).data
  let pre := s.takeWhile (fun c => ¬ c = '@')
  match s.dropWhile (fun c => ¬ c = '@') with
  | '@' :: v =>
      ¬ pre = [] ∧ pre.all isEmailChar ∧ ¬ v = [] ∧ v.all isEmailChar ∧
        ((v.drop 1).dropLast).contains '.'
  | _ => false

/-! ## Data model (types from `pricing.vue`) -/

/-- `UserSearchResult` from `pricing.vue`. -/
structure UserSearchResult where
  id : Nat
  label : String
  suffix : String
  link_instagram : String
  avatarSrc : String
deriving DecidableEq

/-- `UserPost` from `pricing.vue`; `caption` and `taken_at` are nullable. -/
structure UserPost where
  id : String
  thumbnail : String
  shortcode : String
  link_instagram : String
  caption : Option String
  taken_at : Option String
  selected : Bool
deriving DecidableEq

/-- `UserPostsResponse` from `pricing.vue` (one fetched content page). -/
structure UserPostsResponse where
  posts : List UserPost
  total : Nat
  skip : Nat
  limit : Nat
deriving DecidableEq

/-- `SelectedPost` from `pricing.vue` (materialized snapshot entry). -/
structure SelectedPost where
  url : String
  title : String
  thumbnail : String
deriving DecidableEq

/-- `DataModel` from `pricing.vue`; the four quantities are JS numbers,
modelled as rationals. -/
structure DataModel where
  email : String
  username : String
  follows : ℚ
  likes : ℚ
  views : ℚ
  comments : ℚ
  user : Option UserSearchResult
  selected_posts : List SelectedPost
deriving DecidableEq

/-- One entry of `searchCache` (`{ t: number; data: UserSearchResult[] }`). -/
structure CacheEntry where
  t : Nat
  data : List UserSearchResult
deriving DecidableEq

/-- One in-flight search request: its allocation id, the cache key captured
by the closure, and whether its `AbortController` has been aborted. -/
structure PendingSearch where
  reqId : Nat
  key : String
  aborted : Bool
deriving DecidableEq

/-- The reactive state of the wizard page: the data model, the posts page
and loading state, the suggestion dropdown state, the debounce timer (with
its captured query), the current `AbortController` (by request id), the
in-flight search requests, and both caches.  `step` is the stepper's active
step. -/
structure WizardState where
  dataModel : DataModel
  postsModel : UserPostsResponse
  postsLoading : Bool
  postsPending : Option String
  searchSuggestions : List UserSearchResult
  searchLoading : Bool
  showSuggestions : Bool
  selectionError : Option String
  timerQuery : Option String
  currentAbort : Option Nat
  nextReqId : Nat
  pending : List PendingSearch
  searchCache : List (String × CacheEntry)
  postsCache : List (String × UserPostsResponse)
  step : Nat
deriving DecidableEq

/-! ## Constants from `pricing.vue` -/

def MIN_CHARS : Nat := 3
def DEBOUNCE_MS : Nat := 300
def SEARCH_CACHE_MS : Nat := 120000

/-- The metrics priced by the wizard. -/
inductive Metric where
  | follows | likes | views | comments
deriving DecidableEq

/-- One entry of `sliderOptions`. -/
structure SliderOpt where
  min : ℚ
  max : ℚ
  step : ℚ
  ticks : List ℚ
  price : ℚ

/-- `sliderOptions` from `pricing.vue`. -/
def sliderOptions : Metric → SliderOpt
  | .follows =>
      { min := 0, max := 50000, step := 100
        ticks := [0, 100, 250, 500, 1000, 2500, 5000, 10000, 25000, 50000]
        price := 1/10 }
  | .likes =>
      { min := 0, max := 10000, step := 50
        ticks := [0, 100, 500, 1000, 2500, 5000, 10000]
        price := 3/20 }
  | .views =>
      { min := 0, max := 50000, step := 100
        ticks := [0, 500, 1000, 5000, 10000, 25000, 50000]
        price := 1/20 }
  | .comments =>
      { min := 0, max := 1000, step := 10
        ticks := [0, 10, 50, 100, 250, 500, 1000]
        price := 1/2 }

/-- Read one metric's quantity from the data model. -/
def DataModel.quant (dm : DataModel) : Metric → ℚ
  | .follows => dm.follows
  | .likes => dm.likes
  | .views => dm.views
  | .comments => dm.comments

/-- Write one metric's quantity in the data model. -/
def DataModel.setQuant (dm : DataModel) : Metric → ℚ → DataModel
  | .follows, v => { dm with follows := v }
  | .likes, v => { dm with likes := v }
  | .views, v => { dm with views := v }
  | .comments, v => { dm with comments := v }

/-- `totalNumeric` from `pricing.vue`: the sum of the four per-metric
prices, each `price * quantity / 1000`. -/
def totalNumeric (dm : DataModel) : ℚ :=
  (sliderOptions .follows).price * (dm.follows / 1000) +
  (sliderOptions .likes).price * (dm.likes / 1000) +
  (sliderOptions .views).price * (dm.views / 1000) +
  (sliderOptions .comments).price * (dm.comments / 1000)

/-- `normalizedUsername` from `pricing.vue`: trim, then strip one leading
`'@'`. -/
def normalizedUsername (dm : DataModel) : String :=
  stripAt (jsTrim dm.username)

/-- The empty content page `{ posts: [], total: 0, skip: 0, limit: 12 }`
used by the resets. -/
def emptyPage : UserPostsResponse :=
  { posts := [], total := 0, skip := 0, limit := 12 }

/-- The initial wizard state (the `ref` initializers of `pricing.vue`). -/
def initState : WizardState :=
  { dataModel :=
      { email := "", username := "", follows := 0, likes := 0, views := 0
        comments := 0, user := none, selected_posts := [] }
    postsModel := emptyPage
    postsLoading := false
    postsPending := none
    searchSuggestions := []
    searchLoading := false
    showSuggestions := false
    selectionError := none
    timerQuery := none
    currentAbort := none
    nextReqId := 0
    pending := []
    searchCache := []
    postsCache := []
    step := 0 }

/-! ## Cache primitives (JS `Map.get` / `Map.has` / `Map.set`) -/

/-- Look up a key in an association list (JS `Map.get`). -/
def lookupCache (c : List (String × CacheEntry)) (k : String) : Option CacheEntry :=
  (c.find? (fun p => p.1 = k)).map (fun p => p.2)

/-- Update a key in an association list (JS `Map.set`). -/
def setCache (c : List (String × CacheEntry)) (k : String) (e : CacheEntry) :
    List (String × CacheEntry) :=
  (k, e) :: c.filter (fun p => ¬ p.1 = k)

/-- Look up a key in the posts cache (JS `Map.get` / `Map.has`). -/
def lookupPosts (c : List (String × UserPostsResponse)) (k : String) :
    Option UserPostsResponse :=
  (c.find? (fun p => p.1 = k)).map (fun p => p.2)

/-- Update a key in the posts cache (JS `Map.set`). -/
def setPosts (c : List (String × UserPostsResponse)) (k : String)
    (page : UserPostsResponse) : List (String × UserPostsResponse) :=
  (k, page) :: c.filter (fun p => ¬ p.1 = k)

/-! ## Search client operations -/

/-- Model of `searchAbort.abort()`: mark the request owned by the current
controller as aborted. -/
def abortCurrent (s : WizardState) : WizardState :=
  match s.currentAbort with
  | some i =>
      { s with pending :=
          s.pending.map (fun r => if r.reqId = i then { r with aborted := true } else r) }
  | none => s

/-- The network-issuing tail of `fetchSearchSuggestions`: abort any previous
controller, create a fresh one, and start the `$fetch`.  Returns the new
state together with the id and cache key of the issued request. -/
def issueSearch (s : WizardState) (key : String) :
    WizardState × Option (Nat × String) :=
  let s1 := abortCurrent s
  ({ s1 with
      currentAbort := some s1.nextReqId
      nextReqId := s1.nextReqId + 1
      pending := s1.pending ++ [⟨s1.nextReqId, key, false⟩] },
   some (s1.nextReqId, key))

/-- Model of `fetchSearchSuggestions(query)` up to its first suspension
point: the short-query clear, the cache consult, or the issuing of a network
request.  The second component is the issued request, if any. -/
def fetchSearchSuggestions (s : WizardState) (query : String) (now : Nat) :
    WizardState × Option (Nat × String) :=
  if strLen (stripAt (jsTrim query)) < MIN_CHARS then
    ({ s with searchSuggestions := [], showSuggestions := false,
              searchLoading := false }, none)
  else
    match lookupCache s.searchCache (jsToLower (stripAt (jsTrim query))) with
    | some e =>
        if now - e.t < SEARCH_CACHE_MS then
          ({ s with searchSuggestions := e.data, showSuggestions := true,
                    searchLoading := false }, none)
        else issueSearch s (jsToLower (stripAt (jsTrim query)))
    | none => issueSearch s (jsToLower (stripAt (jsTrim query)))

/-- Delivery of a search response for request `reqId`.  An aborted request
rejects with `AbortError`, which the `catch` silently drops (only the
`finally` clears the loading flag); a live request's response is applied to
the suggestion list and refreshes the cache entry. -/
def deliverSearch (s : WizardState) (reqId : Nat)
    (data : List UserSearchResult) (now : Nat) : WizardState :=
  match s.pending.find? (fun r => r.reqId = reqId) with
  | none => s
  | some r =>
      if r.aborted then
        { s with searchLoading := false,
                 pending := s.pending.filter (fun x => ¬ x.reqId = reqId) }
      else
        { s with searchSuggestions := data
                 searchCache := setCache s.searchCache r.key ⟨now, data⟩
                 showSuggestions := true
                 searchLoading := false
                 pending := s.pending.filter (fun x => ¬ x.reqId = reqId) }

/-- Delivery of a non-abort failure for request `reqId`: the `catch` clears
the suggestion list; `showSuggestions` is left as it was. -/
def deliverSearchError (s : WizardState) (reqId : Nat) : WizardState :=
  match s.pending.find? (fun r => r.reqId = reqId) with
  | none => s
  | some r =>
      if r.aborted then
        { s with searchLoading := false,
                 pending := s.pending.filter (fun x => ¬ x.reqId = reqId) }
      else
        { s with searchSuggestions := [], searchLoading := false,
                 pending := s.pending.filter (fun x => ¬ x.reqId = reqId) }

/-! ## Username watcher -/

/-- The selection-invalidation head of the username watcher: if a user is
chosen and the new text no longer matches its suffix (after trimming), clear
the chosen user, the selection error, the content page and the snapshot. -/
def clearUserIfMismatch (s : WizardState) (value : String) : WizardState :=
  match s.dataModel.user with
  | some u =>
      if jsTrim value = u.suffix then s
      else
        { s with
            dataModel := { s.dataModel with user := none, selected_posts := [] }
            selectionError := none
            postsModel := emptyPage }
  | none => s

/-- The debounce tail of the username watcher: clear the pending timer, then
either (query shorter than 2) abort the in-flight controller and clear the
dropdown, or (otherwise) show the loading dropdown and arm the debounce
timer with the normalized query. -/
def watcherTail (s : WizardState) (value : String) : WizardState :=
  if strLen (stripAt (jsTrim value)) < 2 then
    { abortCurrent s with
        timerQuery := none
        currentAbort := none
        searchSuggestions := []
        showSuggestions := false
        searchLoading := false }
  else
    { s with
        timerQuery := some (stripAt (jsTrim value))
        showSuggestions := true
        searchLoading := true }

/-- A user edit of the username input: the `v-model` write followed by the
watcher body (`watch(() => dataModel.value.username, ...)`).  The watcher
returns immediately when the value did not change; `isSelectingSuggestion`
is `false` for a genuine user edit, since `selectSuggestion` is modelled as
its own atomic step. -/
def editUsername (s : WizardState) (value : String) : WizardState :=
  if value = s.dataModel.username then
    { s with dataModel := { s.dataModel with username := value } }
  else
    watcherTail
      (clearUserIfMismatch
        { s with dataModel := { s.dataModel with username := value } } value)
      value

/-- The debounce timer firing: run `fetchSearchSuggestions` on the captured
query.  A no-op when no timer is armed. -/
def fireDebounce (s : WizardState) (now : Nat) :
    WizardState × Option (Nat × String) :=
  match s.timerQuery with
  | some q => fetchSearchSuggestions { s with timerQuery := none } q now
  | none => (s, none)

/-! ## Posts fetching -/

/-- Copy a content page with every item's `selected` flag set to `false`
(the `posts.map(p => ({ ...p, selected: false }))` idiom). -/
def resetSelected (page : UserPostsResponse) : UserPostsResponse :=
  { page with posts := page.posts.map (fun p => { p with selected := false }) }

/-- Model of `fetchUserPosts()` up to its first suspension point: the
missing-user guard, the cache consult (a hit installs a copy of the cached
page with every `selected` flag reset and performs no network call), or the
start of the network fetch.  The second component is the username key of an
issued network request, if any. -/
def fetchUserPostsStep (s : WizardState) : WizardState × Option String :=
  match s.dataModel.user with
  | none => (s, none)
  | some _ =>
      let username := jsTrim (normalizedUsername s.dataModel)
      match lookupPosts s.postsCache username with
      | some cached =>
          ({ s with postsModel := resetSelected cached }, none)
      | none =>
          ({ s with postsLoading := true, postsPending := some username },
           some username)

/-- Delivery of a posts response: initialize every returned item's
`selected` to `false`, install the page, and store it in the posts cache
under the key captured at call time. -/
def deliverPosts (s : WizardState) (res : UserPostsResponse) : WizardState :=
  match s.postsPending with
  | none => s
  | some key =>
      let page : UserPostsResponse := resetSelected res
      { s with postsModel := page
               postsCache := setPosts s.postsCache key page
               postsLoading := false
               postsPending := none }

/-- Delivery of a posts fetch failure: a toast is raised and the cache and
page are left unmodified. -/
def deliverPostsError (s : WizardState) : WizardState :=
  { s with postsLoading := false, postsPending := none }

/-! ## Suggestion selection -/

/-- The synchronous mutation block of `selectSuggestion(item)`: stop the
debounce timer, drop the loading flag, install the chosen user and its
suffix as username, clear the selection error, reset the content page and
the snapshot, and close and clear the dropdown.  The trailing background
prefetch (`void fetchUserPosts()`) is modelled separately. -/
def selectSuggestion (s : WizardState) (item : UserSearchResult) : WizardState :=
  { s with
      timerQuery := none
      searchLoading := false
      dataModel := { s.dataModel with
        username := item.suffix
        user := some item
        selected_posts := [] }
      selectionError := none
      postsModel := emptyPage
      showSuggestions := false
      searchSuggestions := [] }

/-! ## Stage transitions -/

/-- Model of `verfyUserInfo()`: validate the email (non-empty then
syntactically valid), require an explicitly chosen user, advance the
stepper, and trigger a background posts fetch when the normalized username
is not in the posts cache.  Returns (state, advanced?, issued posts fetch
key). -/
def verfyUserInfo (s : WizardState) : WizardState × Bool × Option String :=
  if jsTrim s.dataModel.email = "" then (s, false, none)
  else if isValidEmail s.dataModel.email then
    match s.dataModel.user with
    | none => (s, false, none)
    | some _ =>
        let s1 := { s with step := min (s.step + 1) 2 }
        if (lookupPosts s1.postsCache
              (jsTrim (normalizedUsername s1.dataModel))).isSome then
          (s1, true, none)
        else
          let r := fetchUserPostsStep s1
          (r.1, true, r.2)
  else (s, false, none)

/-- Snapshot of one selected post taken by `verifyForm`: URL, title with the
`caption → link → default label` fallback chain, and thumbnail. -/
def snapshotPost (p : UserPost) : SelectedPost :=
  { url := jsOr p.link_instagram ""
    title := jsOrN p.caption (jsOr p.link_instagram "Post de Instagram")
    thumbnail := p.thumbnail }

/-- Model of `verifyForm()`: require at least one selected post and a
positive numeric total, then materialize the snapshot and advance.  Returns
(state, advanced?). -/
def verifyForm (s : WizardState) : WizardState × Bool :=
  let sel := s.postsModel.posts.filter (fun p => p.selected)
  if sel.length = 0 then (s, false)
  else if totalNumeric s.dataModel ≤ 0 then (s, false)
  else
    ({ s with
        dataModel := { s.dataModel with selected_posts := sel.map snapshotPost }
        step := min (s.step + 1) 2 },
     true)

/-! ## Confirmation gate (`ConfirmModal` and `handleConfirmOrder`) -/

/-- The local state of `ConfirmModal`: the acknowledgment checkbox, the
validation message, and whether focus was moved to the checkbox. -/
structure ModalState where
  condiciones : Bool
  error : String
  focusRequested : Bool
deriving DecidableEq

/-- The validation message of `ConfirmModal.handleConfirm`. -/
def condMsg : String := "Debes aceptar las condiciones para continuar."

/-- Model of `ConfirmModal.handleConfirm`: with the checkbox unchecked,
surface the validation message and focus the checkbox without closing the
dialog (`none`); otherwise emit `close(true)`. -/
def handleConfirm (m : ModalState) : ModalState × Option Bool :=
  if m.condiciones then (m, some true)
  else ({ m with error := condMsg, focusRequested := true }, none)

/-- Model of the modal's cancel / close buttons: emit `close(false)`. -/
def modalCancel (m : ModalState) : ModalState × Option Bool := (m, some false)

/-- Model of the checkbox `v-model` write plus the watcher that clears the
validation message once the box is checked. -/
def setCondiciones (m : ModalState) (b : Bool) : ModalState :=
  if b then { m with condiciones := b, error := "" }
  else { m with condiciones := b }

/-- The order payload logged by `handleConfirmOrder` on acceptance. -/
structure LoggedOrder where
  email : String
  username : String
  follows : ℚ
  likes : ℚ
  views : ℚ
  comments : ℚ
  total : ℚ
deriving DecidableEq

/-- The payload `handleConfirmOrder` would log for a given state. -/
def loggedOf (s : WizardState) : LoggedOrder :=
  { email := s.dataModel.email
    username := s.dataModel.username
    follows := s.dataModel.follows
    likes := s.dataModel.likes
    views := s.dataModel.views
    comments := s.dataModel.comments
    total := totalNumeric s.dataModel }

/-- Model of `handleConfirmOrder` after the modal resolved: on `false`
return with nothing changed; on `true` perform the (stubbed) submission side
effect (the logged payload) and raise the success toast.  Returns
(state, logged payload, success toast raised?). -/
def handleConfirmOrder (s : WizardState) (shouldSendOrder : Bool) :
    WizardState × Option LoggedOrder × Bool :=
  if shouldSendOrder then (s, some (loggedOf s), true)
  else (s, none, false)

/-! ## Slider component (`RangeInput.vue`, index-based) -/

/-- The value emitted by `RangeInput` when its internal `currentIndex`
becomes `idx`: `props.ticks[newIndex]`.  The wrapped `USlider` is configured
with `:min="0" :max="ticks.length - 1" :step="1"`, so the index it yields is
always within bounds; the model clamps accordingly. -/
def rangeInputEmit (ticks : List ℚ) (idx : Nat) : ℚ :=
  ticks.getD (min idx (ticks.length - 1)) 0

/-- A slider update for one metric: the `v-model` write of the emitted tick
value into the data model. -/
def setQuantity (s : WizardState) (m : Metric) (idx : Nat) : WizardState :=
  { s with dataModel :=
      s.dataModel.setQuant m (rangeInputEmit (sliderOptions m).ticks idx) }

/-- A checkbox toggle on one post of the current content page
(`v-model="post.selected"`). -/
def togglePost (s : WizardState) (pid : String) (b : Bool) : WizardState :=
  { s with postsModel := { s.postsModel with
      posts := s.postsModel.posts.map
        (fun p => if p.id = pid then { p with selected := b } else p) } }

/-! ## Event system

Every user-initiated operation and every asynchronous completion of the
wizard session, as one step function on the wizard state. -/

/-- The events that can occur during one wizard session. -/
inductive Event where
  | editUsername (value : String)
  | fireDebounce (now : Nat)
  | deliverSearch (reqId : Nat) (data : List UserSearchResult) (now : Nat)
  | deliverSearchError (reqId : Nat)
  | select (item : UserSearchResult)
  | deliverPosts (res : UserPostsResponse)
  | deliverPostsError
  | setEmail (value : String)
  | setQuantity (m : Metric) (idx : Nat)
  | togglePost (pid : String) (b : Bool)
  | userInfoSubmit
  | formSubmit
  | prevStep
  | confirmOrder (accepted : Bool)

/-- One step of the wizard: dispatch an event to the corresponding
operation.  `select` includes the synchronous background prefetch that
`selectSuggestion` fires (`void fetchUserPosts()`). -/
def stepE (s : WizardState) (e : Event) : WizardState :=
  match e with
  | .editUsername v => editUsername s v
  | .fireDebounce now => (fireDebounce s now).1
  | .deliverSearch reqId data now => deliverSearch s reqId data now
  | .deliverSearchError reqId => deliverSearchError s reqId
  | .select item => (fetchUserPostsStep (selectSuggestion s item)).1
  | .deliverPosts res => deliverPosts s res
  | .deliverPostsError => deliverPostsError s
  | .setEmail v => { s with dataModel := { s.dataModel with email := v } }
  | .setQuantity m idx => setQuantity s m idx
  | .togglePost pid b => togglePost s pid b
  | .userInfoSubmit => (verfyUserInfo s).1
  | .formSubmit => (verifyForm s).1
  | .prevStep => { s with step := s.step - 1 }
  | .confirmOrder accepted => (handleConfirmOrder s accepted).1

/-- Run a list of events from the initial state. -/
def run (evs : List Event) : WizardState :=
  evs.foldl stepE initState

/-! ## Helper lemmas -/

/-- `abortCurrent` only touches the pending request list. -/
lemma abortCurrent_dataModel (s : WizardState) :
    (abortCurrent s).dataModel = s.dataModel := by
  unfold abortCurrent; split <;> rfl

/-- `abortCurrent` leaves the content page unchanged. -/
lemma abortCurrent_postsModel (s : WizardState) :
    (abortCurrent s).postsModel = s.postsModel := by
  unfold abortCurrent; split <;> rfl

/-- The debounce tail of the watcher never touches the data model. -/
lemma watcherTail_dataModel (s : WizardState) (v : String) :
    (watcherTail s v).dataModel = s.dataModel := by
  unfold watcherTail
  split
  · exact abortCurrent_dataModel s
  · rfl

/-- The debounce tail of the watcher never touches the content page. -/
lemma watcherTail_postsModel (s : WizardState) (v : String) :
    (watcherTail s v).postsModel = s.postsModel := by
  unfold watcherTail
  split
  · exact abortCurrent_postsModel s
  · rfl

/-! ## Concrete fixtures used by counterexamples and witnesses -/

/-- A concrete search result ("user A"), with a whitespace-free handle. -/
def itemA : UserSearchResult :=
  { id := 1, label := "User A", suffix := "usera"
    link_instagram := "https://instagram.com/usera", avatarSrc := "" }

/-- A second concrete search result ("user B"). -/
def itemB : UserSearchResult :=
  { id := 2, label := "User B", suffix := "userb"
    link_instagram := "https://instagram.com/userb", avatarSrc := "" }

/-! ## C2: selecting a suggestion -/

/-- C2 (amended): selecting a suggestion stops the pending debounce timer,
sets the chosen user to exactly that item (and the username to its suffix),
clears the suggestion list and closes the dropdown, and resets the content
page to the empty page and the snapshot to the empty list — but it does
**not** abort an in-flight search request: the pending request list and the
current `AbortController` are left untouched, so a late response can still
be applied. -/
theorem selectSuggestion_effects (s : WizardState) (item : UserSearchResult) :
    (selectSuggestion s item).timerQuery = none ∧
    (selectSuggestion s item).dataModel.user = some item ∧
    (selectSuggestion s item).dataModel.username = item.suffix ∧
    (selectSuggestion s item).searchSuggestions = [] ∧
    (selectSuggestion s item).showSuggestions = false ∧
    (selectSuggestion s item).postsModel = emptyPage ∧
    (selectSuggestion s item).dataModel.selected_posts = [] ∧
    (selectSuggestion s item).pending = s.pending ∧
    (selectSuggestion s item).currentAbort = s.currentAbort :=
  ⟨rfl, rfl, rfl, rfl, rfl, rfl, rfl, rfl, rfl⟩

/-- The run refuting C2 as stated: type "abc", let the debounce fire (request
0 goes out), select `itemA` while request 0 is still in flight, then let
request 0 resolve. -/
def c2Trace : WizardState :=
  run [ .editUsername "abc", .fireDebounce 0, .select itemA,
        .deliverSearch 0 [itemB] 0 ]

/-- C2 counterexample: selecting a suggestion does not stop the in-flight
search request — after the selection its response is still applied, so the
suggestion list, which the claim says is cleared by the selection, ends up
non-empty (and the dropdown reopens) while `itemA` is the chosen user. -/
theorem selectSuggestion_inflight_counterexample :
    c2Trace.dataModel.user = some itemA ∧
    c2Trace.searchSuggestions = [itemB] ∧
    c2Trace.showSuggestions = true ∧ ¬ ([itemB] = ([] : List UserSearchResult)) := by
  decide

/-! ## C3: editing the username after a selection -/

/-- On a mismatching edit, the invalidation head of the watcher clears the
chosen user, the snapshot, the selection error and the content page. -/
lemma clearUserIfMismatch_of_mismatch (t : WizardState) (v : String)
    (u : UserSearchResult)
    (hU : t.dataModel.user = some u) (hMis : jsTrim v ≠ u.suffix) :
    clearUserIfMismatch t v =
      { t with
          dataModel := { t.dataModel with user := none, selected_posts := [] }
          selectionError := none
          postsModel := emptyPage } := by
  unfold clearUserIfMismatch
  simp only [hU]
  rw [if_neg hMis]

/-- C3: whenever a user is chosen and the username text is edited to a value
whose trimmed form differs from the chosen user's suffix, the watcher clears
the chosen user, resets the snapshot to the empty list, and resets the
content page to the empty page. -/
theorem editUsername_clears_user (s : WizardState) (value : String)
    (u : UserSearchResult)
    (hNe : value ≠ s.dataModel.username)
    (hU : s.dataModel.user = some u)
    (hMis : jsTrim value ≠ u.suffix) :
    (editUsername s value).dataModel.user = none ∧
    (editUsername s value).dataModel.selected_posts = [] ∧
    (editUsername s value).postsModel = emptyPage := by
  unfold editUsername
  rw [if_neg hNe]
  rw [clearUserIfMismatch_of_mismatch
        { s with dataModel := { s.dataModel with username := value } } value u hU hMis]
  refine ⟨?_, ?_, ?_⟩
  · rw [watcherTail_dataModel]
  · rw [watcherTail_dataModel]
  · rw [watcherTail_postsModel]

/-- C3 witness: a concrete state with `itemA` chosen, edited to "other". -/
def c3State : WizardState := run [ .editUsername "use", .fireDebounce 0,
  .deliverSearch 0 [itemA] 0, .select itemA ]

/-- Witness for C3 at a concrete state reached by selecting `itemA` and then
typing "other". -/
theorem editUsername_clears_user_witness :
    (editUsername c3State "other").dataModel.user = none ∧
    (editUsername c3State "other").dataModel.selected_posts = [] ∧
    (editUsername c3State "other").postsModel = emptyPage :=
  editUsername_clears_user c3State "other" itemA (by decide) (by decide) (by decide)

/-! ## C7: posts cache hit -/

/-- C7: when the normalized username has an entry in the posts cache,
`fetchUserPosts` performs no network call and installs a copy of the cached
page in which every item's `selected` flag is `false` — whatever the flags
stored in the cached page are (so also after they were mutated during an
earlier visit to the price-setting stage). -/
theorem fetchUserPosts_cache_hit (s : WizardState) (u : UserSearchResult)
    (page : UserPostsResponse)
    (hU : s.dataModel.user = some u)
    (hC : lookupPosts s.postsCache (jsTrim (normalizedUsername s.dataModel)) =
      some page) :
    (fetchUserPostsStep s).2 = none ∧
    (fetchUserPostsStep s).1 = { s with postsModel := resetSelected page } ∧
    ∀ p ∈ (fetchUserPostsStep s).1.postsModel.posts, p.selected = false := by
  have h2 : fetchUserPostsStep s =
      ({ s with postsModel := resetSelected page }, none) := by
    unfold fetchUserPostsStep
    simp only [hU, hC]
  rw [h2]
  refine ⟨rfl, rfl, ?_⟩
  intro p hp
  simp only [resetSelected, List.mem_map] at hp
  obtain ⟨q, _, rfl⟩ := hp
  rfl

/-- A concrete cached page whose single item is marked selected (as it would
be after a visit to the price-selection stage). -/
def cachedPageA : UserPostsResponse :=
  { posts := [{ id := "p1", thumbnail := "t1", shortcode := "sc1"
                link_instagram := "https://instagram.com/p/sc1"
                caption := some "hello", taken_at := none, selected := true }]
    total := 1, skip := 0, limit := 12 }

/-- A concrete state with `itemA` chosen and a mutated page for "usera" in
the posts cache. -/
def c7State : WizardState :=
  { (run [ .editUsername "use", .fireDebounce 0, .deliverSearch 0 [itemA] 0,
           .select itemA ]) with
      postsCache := [("usera", cachedPageA)] }

/-- Witness for C7 at a concrete state whose cache holds a page with a
mutated (true) selected flag. -/
theorem fetchUserPosts_cache_hit_witness :
    (fetchUserPostsStep c7State).2 = none ∧
    (fetchUserPostsStep c7State).1 = { c7State with postsModel := resetSelected cachedPageA } ∧
    ∀ p ∈ (fetchUserPostsStep c7State).1.postsModel.posts, p.selected = false :=
  fetchUserPosts_cache_hit c7State itemA cachedPageA (by decide) (by decide)

/-! ## C8: confirmation gate -/

/-- C8: the modal resolves `true` only through `handleConfirm` with the
acknowledgment checkbox checked; attempting to confirm with it unchecked
surfaces the local validation message and focuses the checkbox without
closing the dialog; cancel resolves `false` leaving the modal state alone;
and `handleConfirmOrder` performs the submission side effect (the logged
payload) and the success notification exactly when the modal resolved
`true`, leaving the wizard state untouched in every case — in particular the
decline path changes nothing and produces no side effect. -/
theorem confirm_gate (m : ModalState) (s : WizardState) :
    ((handleConfirm m).2 = some true → m.condiciones = true) ∧
    (m.condiciones = false →
      handleConfirm m = ({ m with error := condMsg, focusRequested := true }, none)) ∧
    modalCancel m = (m, some false) ∧
    handleConfirmOrder s false = (s, none, false) ∧
    handleConfirmOrder s true = (s, some (loggedOf s), true) := by
  unfold handleConfirm modalCancel handleConfirmOrder
  by_cases h : m.condiciones <;> simp [h]

/-- Witness for C8: with the checkbox unchecked the confirm attempt only
surfaces the message and focuses the box, and a declined modal leaves the
initial wizard state unchanged with no submission and no toast. -/
theorem confirm_gate_witness :
    handleConfirm ⟨false, "", false⟩ = (⟨false, condMsg, true⟩, none) ∧
    handleConfirmOrder initState false = (initState, none, false) :=
  ⟨(confirm_gate ⟨false, "", false⟩ initState).2.1 rfl,
   (confirm_gate ⟨false, "", false⟩ initState).2.2.2.1⟩

/-! ## C5: PriceSetting → ReviewOrder gate -/

/-- C5: `verifyForm` advances if and only if at least one content item is
selected and the numeric total is positive (zero selected items block the
transition even with a positive total), and on advancement the snapshot
`selected_posts` is exactly the selected items mapped through
`snapshotPost` (URL, caption → link → default-label title, thumbnail). -/
theorem verifyForm_gate (s : WizardState) :
    ((verifyForm s).2 = true ↔
      (s.postsModel.posts.filter (fun p => p.selected) ≠ [] ∧
        0 < totalNumeric s.dataModel)) ∧
    ((verifyForm s).2 = true →
      (verifyForm s).1.dataModel.selected_posts =
        (s.postsModel.posts.filter (fun p => p.selected)).map snapshotPost) := by
  simp only [verifyForm]
  by_cases h1 : (s.postsModel.posts.filter (fun p => p.selected)).length = 0
  · rw [if_pos h1]
    simp [List.length_eq_zero.mp h1]
  · rw [if_neg h1]
    by_cases h2 : totalNumeric s.dataModel ≤ 0
    · rw [if_pos h2]
      simp [not_lt.mpr h2]
    · rw [if_neg h2]
      simp [← List.length_eq_zero, h1, not_le.mp h2]

/-- A content page with a single selected post without caption and without
link, exercising the default-title fallback. -/
def pageOneSelected : UserPostsResponse :=
  { posts := [{ id := "p1", thumbnail := "thumb", shortcode := "sc"
                link_instagram := "", caption := none, taken_at := none
                selected := true }]
    total := 1, skip := 0, limit := 12 }

/-- A concrete state in the price-setting stage with one selected post and a
positive total. -/
def c5State : WizardState :=
  { initState with
      postsModel := pageOneSelected
      dataModel := { initState.dataModel with follows := 1000 } }

/-- Witness for C5: at `c5State` the transition fires and the snapshot is
the single selected post with the default title. -/
theorem verifyForm_gate_witness :
    (verifyForm c5State).2 = true ∧
    (verifyForm c5State).1.dataModel.selected_posts =
      (c5State.postsModel.posts.filter (fun p => p.selected)).map snapshotPost :=
  ⟨(verifyForm_gate c5State).1.mpr
    ⟨by decide, by norm_num [totalNumeric, c5State, initState, sliderOptions]⟩,
   (verifyForm_gate c5State).2 ((verifyForm_gate c5State).1.mpr
    ⟨by decide, by norm_num [totalNumeric, c5State, initState, sliderOptions]⟩)⟩

/-! ## C4: UserInfo → PriceSetting gate -/

/-- C4: `verfyUserInfo` advances if and only if the trimmed email is
non-empty, the email is syntactically valid, and a user was explicitly
chosen (`dataModel.user` non-null — typed-but-unselected text leaves it
null, hence is rejected); and on this transition a background posts fetch is
issued exactly when the normalized username has no entry in the posts
cache.  The stepper advance happens independently of the fetch, which is
fired without blocking it. -/
theorem verfyUserInfo_gate (s : WizardState) :
    ((verfyUserInfo s).2.1 = true ↔
      (jsTrim s.dataModel.email ≠ "" ∧ isValidEmail s.dataModel.email = true ∧
        s.dataModel.user.isSome = true)) ∧
    ((verfyUserInfo s).2.2.isSome = true ↔
      ((verfyUserInfo s).2.1 = true ∧
        lookupPosts s.postsCache (jsTrim (normalizedUsername s.dataModel)) = none)) := by
  unfold verfyUserInfo
  by_cases hE : jsTrim s.dataModel.email = ""
  · rw [if_pos hE]
    simp [hE]
  · rw [if_neg hE]
    by_cases hV : isValidEmail s.dataModel.email
    · rw [if_pos hV]
      cases hu : s.dataModel.user with
      | none => simp [hE, hV]
      | some u =>
          by_cases hL : (lookupPosts s.postsCache
              (jsTrim (normalizedUsername s.dataModel))).isSome
          · rw [if_pos (by simpa using hL)]
            have hne : lookupPosts s.postsCache
                (jsTrim (normalizedUsername s.dataModel)) ≠ none :=
              Option.isSome_iff_ne_none.mp hL
            simp [hE, hV, hne]
          · rw [if_neg (by simpa using hL)]
            have hNone : lookupPosts s.postsCache
                (jsTrim (normalizedUsername s.dataModel)) = none :=
              Option.not_isSome_iff_eq_none.mp hL
            unfold fetchUserPostsStep
            simp [hE, hV, hu, hNone]
    · rw [if_neg hV]
      simp [hV]

/-- A concrete state in the user-info stage: valid email, `itemA` chosen,
nothing cached. -/
def c4State : WizardState :=
  { initState with dataModel :=
      { initState.dataModel with
          email := "ana@example.com", username := "usera", user := some itemA } }

/-- Witness for C4 at `c4State`: the transition fires and a background posts
fetch is issued because the posts cache has no entry for "usera". -/
theorem verfyUserInfo_gate_witness :
    (verfyUserInfo c4State).2.1 = true ∧ (verfyUserInfo c4State).2.2.isSome = true :=
  ⟨(verfyUserInfo_gate c4State).1.mpr (by decide),
   (verfyUserInfo_gate c4State).2.mpr
     ⟨(verfyUserInfo_gate c4State).1.mpr (by decide), by decide⟩⟩

/-! ## C6: short queries -/

/-- Dropping a prefix never lengthens a list. -/
lemma dropWhile_len_le (p : Char → Bool) (l : List Char) :
    (l.dropWhile p).length ≤ l.length := by
  induction l with
  | nil => simp [List.dropWhile]
  | cons c cs ih =>
      by_cases h : p c
      · simp only [List.dropWhile, h]
        exact Nat.le_succ_of_le ih
      · simp [List.dropWhile, h]

/-- Trimming never lengthens a string. -/
lemma jsTrim_len_le (t : String) : strLen (jsTrim t) ≤ strLen t := by
  unfold jsTrim strLen
  simp only [List.length_reverse]
  exact le_trans (dropWhile_len_le _ _)
    (by simpa using dropWhile_len_le isSpaceChar t.data)

/-- Stripping a leading at-sign never lengthens a string. -/
lemma stripAt_len_le (t : String) : strLen (stripAt t) ≤ strLen t := by
  unfold stripAt strLen
  split
  · next h => simp [h]
  · exact le_rfl

/-- A username input event together with the debounce timer it arms, run to
completion: the `v-model` write, the watcher, and — when the watcher armed
the timer — the timer firing into `fetchSearchSuggestions`.  The second
component is the issued network request, if any. -/
def processInput (s : WizardState) (value : String) (now : Nat) :
    WizardState × Option (Nat × String) :=
  fireDebounce (editUsername s value) now

/-- C6: for every username input whose normalized query (trimmed, leading
at-sign stripped) is shorter than `MIN_CHARS`, running the input through the
watcher and the debounce yields no network request and an empty suggestion
list: queries shorter than 2 are cleared by the watcher itself, and a
length-2 query is cleared by the guard of `fetchSearchSuggestions`. -/
theorem short_query_no_fetch (s : WizardState) (value : String) (now : Nat)
    (hShort : strLen (stripAt (jsTrim value)) < MIN_CHARS)
    (hNe : value ≠ s.dataModel.username) :
    (processInput s value now).2 = none ∧
    (processInput s value now).1.searchSuggestions = [] := by
  have hedit : editUsername s value =
      watcherTail (clearUserIfMismatch
        { s with dataModel := { s.dataModel with username := value } } value) value := by
    unfold editUsername
    rw [if_neg hNe]
  unfold processInput fireDebounce
  rw [hedit]
  unfold watcherTail
  by_cases h2 : strLen (stripAt (jsTrim value)) < 2
  · rw [if_pos h2]
    exact ⟨rfl, rfl⟩
  · rw [if_neg h2]
    have hcond : strLen (stripAt (jsTrim (stripAt (jsTrim value)))) < MIN_CHARS :=
      lt_of_le_of_lt
        (le_trans (stripAt_len_le (jsTrim (stripAt (jsTrim value))))
          (jsTrim_len_le (stripAt (jsTrim value)))) hShort
    show (fetchSearchSuggestions _ (stripAt (jsTrim value)) now).2 = none ∧
      (fetchSearchSuggestions _ (stripAt (jsTrim value)) now).1.searchSuggestions = []
    unfold fetchSearchSuggestions
    rw [if_pos hcond]
    exact ⟨rfl, rfl⟩

/-- Witness for C6: typing "ab" (two characters) into the fresh wizard
issues no search request and leaves the suggestion list empty. -/
theorem short_query_no_fetch_witness :
    (processInput initState "ab" 0).2 = none ∧
    (processInput initState "ab" 0).1.searchSuggestions = [] :=
  short_query_no_fetch initState "ab" 0 (by decide) (by decide)

/-! ## C1: cancellation of stale search requests -/

/-- When `fetchSearchSuggestions` issues a network request at all, it is the
network-issuing tail: neither the short-query guard nor a fresh cache hit
fired. -/
lemma fetch_isSome_eq_issue (s : WizardState) (q : String) (now : Nat)
    (h : (fetchSearchSuggestions s q now).2.isSome = true) :
    fetchSearchSuggestions s q now = issueSearch s (jsToLower (stripAt (jsTrim q))) := by
  by_cases hlen : strLen (stripAt (jsTrim q)) < MIN_CHARS
  · exfalso
    unfold fetchSearchSuggestions at h
    rw [if_pos hlen] at h
    simp at h
  · unfold fetchSearchSuggestions at h ⊢
    rw [if_neg hlen] at h ⊢
    cases he : lookupCache s.searchCache (jsToLower (stripAt (jsTrim q))) with
    | none => simp only [he]
    | some e =>
        simp only [he] at h ⊢
        by_cases hf : now - e.t < SEARCH_CACHE_MS
        · exfalso
          rw [if_pos hf] at h
          simp at h
        · rw [if_neg hf]

/-- C1 (amended): when a newer lookup B actually reaches the network path of
`fetchSearchSuggestions` (its normalized query is long enough and not served
by a fresh cache entry), the in-flight request A is aborted before B's
request is created, so A's response is never applied: delivering A's
response leaves the suggestion list (and dropdown and cache) unchanged, and
in either delivery order the final suggestion list holds exactly B's data.
The cancellation does not extend to lookups that `fetchSearchSuggestions`
serves from the cache or short-circuits — see the counterexample. -/
theorem stale_search_canceled (s : WizardState) (q : String)
    (now n1 n2 : Nat) (idA : Nat) (keyA : String)
    (dataA dataB : List UserSearchResult)
    (hPend : s.pending = [⟨idA, keyA, false⟩])
    (hCur : s.currentAbort = some idA)
    (hNe : ¬ idA = s.nextReqId)
    (hIss : (fetchSearchSuggestions s q now).2.isSome = true) :
    (deliverSearch (fetchSearchSuggestions s q now).1 idA dataA n1).searchSuggestions =
      (fetchSearchSuggestions s q now).1.searchSuggestions ∧
    (deliverSearch (deliverSearch (fetchSearchSuggestions s q now).1 idA dataA n1)
        s.nextReqId dataB n2).searchSuggestions = dataB ∧
    (deliverSearch (deliverSearch (fetchSearchSuggestions s q now).1 s.nextReqId dataB n1)
        idA dataA n2).searchSuggestions = dataB := by
  rw [fetch_isSome_eq_issue s q now hIss]
  have hab : abortCurrent s = { s with pending := [⟨idA, keyA, true⟩] } := by
    unfold abortCurrent
    rw [hCur, hPend]
    simp
  have hiss : (issueSearch s (jsToLower (stripAt (jsTrim q)))).1 =
      { s with
          pending := [⟨idA, keyA, true⟩,
            ⟨s.nextReqId, jsToLower (stripAt (jsTrim q)), false⟩]
          currentAbort := some s.nextReqId
          nextReqId := s.nextReqId + 1 } := by
    unfold issueSearch
    rw [hab]
    simp
  rw [hiss]
  have hNe2 : ¬ s.nextReqId = idA := fun hh => hNe hh.symm
  unfold deliverSearch
  simp [List.find?, List.filter, hNe, hNe2]

/-- Witness state for the amended C1: request `0` (for key "aaaa") is in
flight and owned by the current controller. -/
def c1WitnessState : WizardState :=
  { initState with
      pending := [⟨0, "aaaa", false⟩]
      currentAbort := some 0
      nextReqId := 1 }

/-- Witness for the amended C1 at a concrete state: issuing "bbbb" aborts
the in-flight request, whose response is then never applied. -/
theorem stale_search_canceled_witness :
    (deliverSearch (fetchSearchSuggestions c1WitnessState "bbbb" 0).1 0 [itemA] 0).searchSuggestions =
      (fetchSearchSuggestions c1WitnessState "bbbb" 0).1.searchSuggestions ∧
    (deliverSearch (deliverSearch (fetchSearchSuggestions c1WitnessState "bbbb" 0).1 0 [itemA] 0)
        c1WitnessState.nextReqId [itemB] 0).searchSuggestions = [itemB] ∧
    (deliverSearch (deliverSearch (fetchSearchSuggestions c1WitnessState "bbbb" 0).1
        c1WitnessState.nextReqId [itemB] 0) 0 [itemA] 0).searchSuggestions = [itemB] :=
  stale_search_canceled c1WitnessState "bbbb" 0 0 0 0 "aaaa" [itemA] [itemB]
    (by decide) (by decide) (by decide) (by decide)

/-- The run refuting C1 as stated: search "abc" (request 0, resolves to
`[itemB]` and is cached), then "abcd" (request 1, in flight — this is query
A), then "abc" again (query B, issued while A is in flight and served from
the fresh cache entry, so A is *not* canceled), then A's response arrives. -/
def c1Trace : WizardState :=
  run [ .editUsername "abc", .fireDebounce 0, .deliverSearch 0 [itemB] 0,
        .editUsername "abcd", .fireDebounce 0,
        .editUsername "abc", .fireDebounce 0,
        .deliverSearch 1 [itemA] 0 ]

/-- C1 counterexample: in `c1Trace`, query B ("abc") was issued after query
A ("abcd") and before A's lookup resolved, yet the final suggestion list is
A's response `[itemA]`, not B's `[itemB]`: because B was served from the
search cache, the stale in-flight request for A was never canceled and A's
response was applied last. -/
theorem stale_search_counterexample :
    c1Trace.searchSuggestions = [itemA] ∧ ¬ ([itemA] = [itemB]) := by
  decide

/-! ## Data-model preservation lemmas for the event step -/

/-- Issuing a search request does not touch the data model. -/
lemma issueSearch_dataModel (s : WizardState) (key : String) :
    (issueSearch s key).1.dataModel = s.dataModel := by
  simp only [issueSearch]
  exact abortCurrent_dataModel s

/-- `fetchSearchSuggestions` does not touch the data model. -/
lemma fetch_dataModel (s : WizardState) (q : String) (now : Nat) :
    (fetchSearchSuggestions s q now).1.dataModel = s.dataModel := by
  unfold fetchSearchSuggestions
  split
  · rfl
  · split
    · split
      · rfl
      · exact issueSearch_dataModel s _
    · exact issueSearch_dataModel s _

/-- The debounce firing does not touch the data model. -/
lemma fireDebounce_dataModel (s : WizardState) (now : Nat) :
    (fireDebounce s now).1.dataModel = s.dataModel := by
  unfold fireDebounce
  split
  · exact fetch_dataModel _ _ _
  · rfl

/-- Delivering a search response does not touch the data model. -/
lemma deliverSearch_dataModel (s : WizardState) (reqId : Nat)
    (data : List UserSearchResult) (now : Nat) :
    (deliverSearch s reqId data now).dataModel = s.dataModel := by
  unfold deliverSearch
  split
  · rfl
  · split <;> rfl

/-- Delivering a search failure does not touch the data model. -/
lemma deliverSearchError_dataModel (s : WizardState) (reqId : Nat) :
    (deliverSearchError s reqId).dataModel = s.dataModel := by
  unfold deliverSearchError
  split
  · rfl
  · split <;> rfl

/-- `fetchUserPosts` does not touch the data model. -/
lemma fetchUserPostsStep_dataModel (s : WizardState) :
    (fetchUserPostsStep s).1.dataModel = s.dataModel := by
  unfold fetchUserPostsStep
  split
  · rfl
  · dsimp only
    split <;> rfl

/-- Delivering a posts response does not touch the data model. -/
lemma deliverPosts_dataModel (s : WizardState) (res : UserPostsResponse) :
    (deliverPosts s res).dataModel = s.dataModel := by
  unfold deliverPosts
  split <;> rfl

/-- `handleConfirmOrder` leaves the wizard state unchanged on both paths. -/
lemma handleConfirmOrder_state (s : WizardState) (b : Bool) :
    (handleConfirmOrder s b).1 = s := by
  unfold handleConfirmOrder
  split <;> rfl

/-- `verfyUserInfo` does not touch the data model (it only advances the
stepper and possibly starts a posts fetch). -/
lemma verfyUserInfo_dataModel (s : WizardState) :
    (verfyUserInfo s).1.dataModel = s.dataModel := by
  unfold verfyUserInfo
  split
  · rfl
  · split
    · split
      · rfl
      · dsimp only
        split
        · rfl
        · exact fetchUserPostsStep_dataModel _
    · rfl

/-- The tuple of the four quantities of a data model. -/
def dmQuants (dm : DataModel) : ℚ × ℚ × ℚ × ℚ :=
  (dm.follows, dm.likes, dm.views, dm.comments)

/-- The chosen user and username of a data model. -/
def dmUserPart (dm : DataModel) : Option UserSearchResult × String :=
  (dm.user, dm.username)

/-- Equal quantity tuples give equal per-metric quantities. -/
lemma quant_eq_of_dmQuants {dm1 dm2 : DataModel}
    (h : dmQuants dm1 = dmQuants dm2) : ∀ m, dm1.quant m = dm2.quant m := by
  intro m
  have h1 := congrArg (fun p => p.1) h
  have h2 := congrArg (fun p => p.2.1) h
  have h3 := congrArg (fun p => p.2.2.1) h
  have h4 := congrArg (fun p => p.2.2.2) h
  cases m <;> assumption

/-- The invalidation head of the watcher does not touch the quantities. -/
lemma clearUserIfMismatch_quants (t : WizardState) (v : String) :
    dmQuants (clearUserIfMismatch t v).dataModel = dmQuants t.dataModel := by
  unfold clearUserIfMismatch
  split
  · split <;> rfl
  · rfl

/-- A username edit does not touch the quantities. -/
lemma editUsername_quants (s : WizardState) (v : String) :
    dmQuants (editUsername s v).dataModel = dmQuants s.dataModel := by
  unfold editUsername
  split
  · rfl
  · rw [watcherTail_dataModel, clearUserIfMismatch_quants]
    rfl

/-- `verifyForm` does not touch the quantities. -/
lemma verifyForm_quants (s : WizardState) :
    dmQuants (verifyForm s).1.dataModel = dmQuants s.dataModel := by
  unfold verifyForm
  dsimp only
  split
  · rfl
  · split <;> rfl

/-- `verifyForm` does not touch the chosen user or the username. -/
lemma verifyForm_userPart (s : WizardState) :
    dmUserPart (verifyForm s).1.dataModel = dmUserPart s.dataModel := by
  unfold verifyForm
  dsimp only
  split
  · rfl
  · split <;> rfl

/-- Writing one metric leaves the chosen user and the username alone. -/
lemma setQuant_userPart (dm : DataModel) (m : Metric) (v : ℚ) :
    dmUserPart (dm.setQuant m v) = dmUserPart dm := by
  cases m <;> rfl

/-- Writing one metric yields that value for that metric. -/
lemma quant_setQuant_self (dm : DataModel) (m : Metric) (v : ℚ) :
    (dm.setQuant m v).quant m = v := by
  cases m <;> rfl

/-- Writing one metric leaves the other metrics alone. -/
lemma quant_setQuant_of_ne (dm : DataModel) (m m2 : Metric) (v : ℚ)
    (h : ¬ m2 = m) : (dm.setQuant m v).quant m2 = dm.quant m2 := by
  cases m <;> cases m2 <;> first
    | exact absurd rfl h
    | rfl

/-! ## C9: quantities are always tick values -/

/-- Every metric's quantity sits in that metric's tick list. -/
def quantsInTicks (s : WizardState) : Prop :=
  ∀ m : Metric, s.dataModel.quant m ∈ (sliderOptions m).ticks

/-- No metric has an empty tick list. -/
lemma ticks_ne_nil (m : Metric) : ¬ (sliderOptions m).ticks = [] := by
  cases m <;> simp [sliderOptions]

/-- The value emitted by the index-based slider is always one of its ticks. -/
lemma rangeInputEmit_mem (ticks : List ℚ) (h : ¬ ticks = []) (idx : Nat) :
    rangeInputEmit ticks idx ∈ ticks := by
  unfold rangeInputEmit
  have hlen : 0 < ticks.length := List.length_pos.mpr h
  have hlt : min idx (ticks.length - 1) < ticks.length := by
    have := Nat.min_le_right idx (ticks.length - 1)
    omega
  rw [List.getD_eq_getElem?_getD, List.getElem?_eq_getElem hlt]
  exact List.getElem_mem hlt

/-- The initial state has every quantity at `0`, the first tick of every
metric. -/
lemma quantsInTicks_init : quantsInTicks initState := by
  intro m
  cases m <;> simp [initState, DataModel.quant, sliderOptions]

/-- One event preserves the tick invariant. -/
lemma quantsInTicks_step (s : WizardState) (e : Event)
    (h : quantsInTicks s) : quantsInTicks (stepE s e) := by
  cases e with
  | setQuantity m idx =>
      intro m2
      show (s.dataModel.setQuant m _).quant m2 ∈ _
      by_cases hm : m2 = m
      · subst hm
        rw [quant_setQuant_self]
        exact rangeInputEmit_mem _ (ticks_ne_nil m2) idx
      · rw [quant_setQuant_of_ne _ _ _ _ hm]
        exact h m2
  | editUsername v =>
      intro m
      show (editUsername s v).dataModel.quant m ∈ _
      rw [quant_eq_of_dmQuants (editUsername_quants s v) m]
      exact h m
  | fireDebounce now =>
      intro m
      show (fireDebounce s now).1.dataModel.quant m ∈ _
      rw [fireDebounce_dataModel]
      exact h m
  | deliverSearch reqId data now =>
      intro m
      show (deliverSearch s reqId data now).dataModel.quant m ∈ _
      rw [deliverSearch_dataModel]
      exact h m
  | deliverSearchError reqId =>
      intro m
      show (deliverSearchError s reqId).dataModel.quant m ∈ _
      rw [deliverSearchError_dataModel]
      exact h m
  | select item =>
      intro m
      show (fetchUserPostsStep (selectSuggestion s item)).1.dataModel.quant m ∈ _
      rw [fetchUserPostsStep_dataModel]
      cases m <;> exact h _
  | deliverPosts res =>
      intro m
      show (deliverPosts s res).dataModel.quant m ∈ _
      rw [deliverPosts_dataModel]
      exact h m
  | deliverPostsError =>
      intro m
      cases m <;> exact h _
  | setEmail v =>
      intro m
      cases m <;> exact h _
  | togglePost pid b =>
      intro m
      cases m <;> exact h _
  | userInfoSubmit =>
      intro m
      show (verfyUserInfo s).1.dataModel.quant m ∈ _
      rw [verfyUserInfo_dataModel]
      exact h m
  | formSubmit =>
      intro m
      show (verifyForm s).1.dataModel.quant m ∈ _
      rw [quant_eq_of_dmQuants (verifyForm_quants s) m]
      exact h m
  | prevStep =>
      intro m
      cases m <;> exact h _
  | confirmOrder accepted =>
      intro m
      show (handleConfirmOrder s accepted).1.dataModel.quant m ∈ _
      rw [handleConfirmOrder_state]
      exact h m

/-- Folding events preserves the tick invariant. -/
lemma quantsInTicks_foldl (evs : List Event) :
    ∀ s : WizardState, quantsInTicks s → quantsInTicks (evs.foldl stepE s) := by
  induction evs with
  | nil => intro s h; exact h
  | cons e rest ih => intro s h; exact ih _ (quantsInTicks_step s e h)

/-- C9: the slider emits exactly `ticks[index]` for the (clamped) index —
never an interpolated value — and consequently, in every state reachable
from the initial draft under any event sequence, every metric's quantity in
the order draft is one of that metric's predefined tick values. -/
theorem quantities_always_ticks :
    (∀ (ticks : List ℚ), ¬ ticks = [] → ∀ idx, rangeInputEmit ticks idx ∈ ticks) ∧
    ∀ evs : List Event, quantsInTicks (run evs) :=
  ⟨fun ticks h idx => rangeInputEmit_mem ticks h idx,
   fun evs => quantsInTicks_foldl evs initState quantsInTicks_init⟩

/-- Witness for C9: sliding follows to index 3 emits tick 500, a member of
the follows tick list, and the resulting draft satisfies the invariant. -/
theorem quantities_always_ticks_witness :
    rangeInputEmit (sliderOptions .follows).ticks 3 ∈ (sliderOptions .follows).ticks ∧
    quantsInTicks (run [Event.setQuantity .follows 3]) :=
  ⟨quantities_always_ticks.1 (sliderOptions .follows).ticks (ticks_ne_nil .follows) 3,
   quantities_always_ticks.2 [Event.setQuantity .follows 3]⟩

/-! ## C10: the username always matches the chosen user -/

/-- An event carries only whitespace-free handles: `select` events must hold
an item whose suffix is unchanged by trimming (the assumption that handles
returned by the search API carry no surrounding whitespace). -/
def eventSuffixTrimmed : Event → Bool
  | .select item => jsTrim item.suffix = item.suffix
  | _ => true

/-- The invariant: a chosen user's suffix equals the trimmed username. -/
def usernameMatchesUser (s : WizardState) : Prop :=
  ∀ u : UserSearchResult, s.dataModel.user = some u →
    jsTrim s.dataModel.username = u.suffix

/-- Case analysis of the invalidation head: either it clears the user
keeping the username, or it returns the state unchanged because no user was
chosen or the trimmed edit still matches the suffix. -/
lemma clearUserIfMismatch_cases (t : WizardState) (v : String) :
    ((clearUserIfMismatch t v).dataModel.user = none ∧
      (clearUserIfMismatch t v).dataModel.username = t.dataModel.username) ∨
    (clearUserIfMismatch t v = t ∧
      (t.dataModel.user = none ∨
        ∃ u, t.dataModel.user = some u ∧ jsTrim v = u.suffix)) := by
  unfold clearUserIfMismatch
  cases hu : t.dataModel.user with
  | none => exact Or.inr ⟨rfl, Or.inl rfl⟩
  | some u =>
      dsimp only
      by_cases hm : jsTrim v = u.suffix
      · rw [if_pos hm]
        exact Or.inr ⟨rfl, Or.inr ⟨u, rfl, hm⟩⟩
      · rw [if_neg hm]
        exact Or.inl ⟨rfl, rfl⟩

/-- One trimmed-handle event preserves the username-matches-user
invariant. -/
lemma usernameMatchesUser_step (s : WizardState) (e : Event)
    (he : eventSuffixTrimmed e = true)
    (h : usernameMatchesUser s) : usernameMatchesUser (stepE s e) := by
  cases e with
  | editUsername v =>
      show usernameMatchesUser (editUsername s v)
      unfold editUsername
      by_cases hv : v = s.dataModel.username
      · rw [if_pos hv]
        intro u hu
        subst hv
        exact h u hu
      · rw [if_neg hv]
        intro u hu
        rw [watcherTail_dataModel] at hu ⊢
        rcases clearUserIfMismatch_cases
            { s with dataModel := { s.dataModel with username := v } } v with
          hclear | ⟨heq, hkeep⟩
        · rw [hclear.1] at hu
          exact absurd hu (by simp)
        · rw [heq] at hu ⊢
          rcases hkeep with hnone | ⟨u2, hu2, hm2⟩
          · rw [show ({ s with dataModel := { s.dataModel with username := v } } :
                WizardState).dataModel.user = s.dataModel.user from rfl] at hnone hu
            rw [hnone] at hu
            exact absurd hu (by simp)
          · rw [hu2] at hu
            cases hu
            exact hm2
  | fireDebounce now =>
      intro u hu
      simp only [stepE] at hu ⊢
      rw [fireDebounce_dataModel] at hu ⊢
      exact h u hu
  | deliverSearch reqId data now =>
      intro u hu
      simp only [stepE] at hu ⊢
      rw [deliverSearch_dataModel] at hu ⊢
      exact h u hu
  | deliverSearchError reqId =>
      intro u hu
      simp only [stepE] at hu ⊢
      rw [deliverSearchError_dataModel] at hu ⊢
      exact h u hu
  | select item =>
      intro u hu
      simp only [stepE] at hu ⊢
      rw [fetchUserPostsStep_dataModel] at hu ⊢
      cases hu
      exact of_decide_eq_true he
  | deliverPosts res =>
      intro u hu
      simp only [stepE] at hu ⊢
      rw [deliverPosts_dataModel] at hu ⊢
      exact h u hu
  | deliverPostsError =>
      intro u hu
      exact h u hu
  | setEmail v =>
      intro u hu
      exact h u hu
  | setQuantity m idx =>
      intro u hu
      simp only [stepE] at hu ⊢
      have hp := setQuant_userPart s.dataModel m
        (rangeInputEmit (sliderOptions m).ticks idx)
      have h1 := congrArg (fun p => p.1) hp
      have h2 := congrArg (fun p => p.2) hp
      simp only [dmUserPart] at h1 h2
      show jsTrim (s.dataModel.setQuant m _).username = u.suffix
      rw [h2]
      refine h u ?_
      rw [← h1]
      exact hu
  | togglePost pid b =>
      intro u hu
      exact h u hu
  | userInfoSubmit =>
      intro u hu
      simp only [stepE] at hu ⊢
      rw [verfyUserInfo_dataModel] at hu ⊢
      exact h u hu
  | formSubmit =>
      intro u hu
      simp only [stepE] at hu ⊢
      have hp := verifyForm_userPart s
      have h1 := congrArg (fun p => p.1) hp
      have h2 := congrArg (fun p => p.2) hp
      simp only [dmUserPart] at h1 h2
      rw [h2]
      refine h u ?_
      rw [← h1]
      exact hu
  | prevStep =>
      intro u hu
      exact h u hu
  | confirmOrder accepted =>
      intro u hu
      simp only [stepE] at hu ⊢
      rw [handleConfirmOrder_state] at hu ⊢
      exact h u hu

/-- Folding trimmed-handle events preserves the invariant. -/
lemma usernameMatchesUser_foldl (evs : List Event) :
    ∀ s : WizardState, (∀ e ∈ evs, eventSuffixTrimmed e = true) →
      usernameMatchesUser s → usernameMatchesUser (evs.foldl stepE s) := by
  induction evs with
  | nil => intro s _ h; exact h
  | cons e rest ih =>
      intro s hall h
      exact ih _ (fun x hx => hall x (List.mem_cons_of_mem e hx))
        (usernameMatchesUser_step s e (hall e (List.mem_cons_self e rest)) h)

/-- C10: in every wizard state reachable from the initial empty draft under
any event sequence whose selected handles carry no surrounding whitespace,
a non-null chosen user's suffix equals the trimmed username text — the
username shown on the review page always matches the explicitly selected
account's handle. -/
theorem chosen_user_matches_username (evs : List Event)
    (hall : ∀ e ∈ evs, eventSuffixTrimmed e = true)
    (u : UserSearchResult) (hu : (run evs).dataModel.user = some u) :
    jsTrim (run evs).dataModel.username = u.suffix :=
  usernameMatchesUser_foldl evs initState hall (by intro u hu; simp [initState] at hu) u hu

/-- Witness for C10: after selecting `itemA` the chosen user is `itemA` and
the trimmed username is its suffix. -/
theorem chosen_user_matches_username_witness :
    (run [Event.select itemA]).dataModel.user = some itemA ∧
    jsTrim (run [Event.select itemA]).dataModel.username = itemA.suffix :=
  ⟨by decide,
   chosen_user_matches_username [Event.select itemA] (by decide) itemA (by decide)⟩

end Wizard

